import Mathlib

/-!
Shallow embedding of the model-registration and build/load lifecycle state
machine of `pygenn/genn_model.py` (class `GeNNModel`).

Native calls (the SWIG `ModelSpecInternal` superclass, the
`SharedLibraryModel` runtime `self._slm`, the backend modules and the
external build toolchain) are modelled as an emitted trace of calls
(`SLMCall`) plus, for the external build steps, a success oracle
(`ExtBuild`).  Python exceptions become an explicit error type `Err` whose
constructors tag the individual `raise` sites of the source.  Every
operation returns the (possibly partially mutated) model object alongside
its outcome, mirroring the fact that a Python exception leaves the object
alive with whatever mutations already happened.
-/

/-- Warnings emitted through Python's `warnings.warn`. -/
inductive PyWarning where
  | deprecation (msg : String)
deriving Repr, DecidableEq

/-- The message of the deprecation warning in
`GeNNModel.push_extra_global_param_to_device` (genn_model.py:598). -/
def egpSizeWarnMsg : String :=
  "The default of size=1 is very counter-intuitive and will be removed in future"

/-- Tags for the `raise` sites of genn_model.py.  The spec's taxonomy maps
onto them as follows: StateError = `alreadyBuilt`, `alreadyLoaded`,
`notLoaded _`; NotFoundError = `groupNotFound _ _`, `backendNotFound _`
(a Python `KeyError` from `backend_modules[backend_name]`);
ConfigurationError = `recTimestepsMissing`, `recordingNotInUse`,
`unsupportedTimePrecision _`, `noBackendAvailable` (a failed `assert`);
ExternalToolFailure = `externalFailure _`.  `groupWrongType _` is the
`ValueError` for a reference that is neither a string nor a NeuronGroup,
and `nameErr _` is a Python `NameError` on an unbound bare identifier. -/
inductive Err where
  | alreadyBuilt
  | alreadyLoaded
  | notLoaded (action : String)
  | recTimestepsMissing
  | recordingNotInUse
  | groupNotFound (context name : String)
  | groupWrongType (context : String)
  | unsupportedTimePrecision (p : String)
  | noBackendAvailable
  | backendNotFound (name : String)
  | nameErr (ident : String)
  | externalFailure (what : String)
deriving Repr, DecidableEq

/-- Calls forwarded to the native shared-library runtime `self._slm`
(and the per-group `load_init_egps` / `load` calls that wrap it). -/
inductive SLMCall where
  | slmOpen (path name : String)
  | allocateMem
  | allocateRecordingBuffers (n : Nat)
  | loadInitEgps (kind name : String)
  | runInit
  | loadGroup (kind name : String) (nrt : Option Nat)
  | runInitSparse
  | stepTimeCall
  | customUpdateCall (name : String)
  | pullConnectivity (pop : String)
  | pushSpikes (pop : String)
  | pushSpikeEvents (pop : String)
  | pushCurrentSpikes (pop : String)
  | pushCurrentSpikeEvents (pop : String)
  | pushConnectivity (pop : String)
  | pushVar (pop v : String)
  | pushExtraGlobalParam (pop egp : String) (size : Nat)
  | pullRecordingBuffers
  | freeExtraGlobalParam (group egp : String)
deriving Repr, DecidableEq

/-- The face of a registered group that the lifecycle layer observes: its
extra global parameters, each with the `needsAllocation` ownership flag
consulted by `GeNNModel.end` (genn_model.py:626).  The remaining group
payload (model descriptor, parameter/variable spaces, sizes) lives in the
native superclass and is opaque to the claims. -/
structure PyGroup where
  extra_global_params : List (String × Bool)
deriving Repr, DecidableEq

/-- A group reference argument as passed to `add_synapse_population` /
`add_current_source`: a Python string, a `NeuronGroup` handle, or a value
of any other type. -/
inductive GroupRef where
  | byName (s : String)
  | byHandle (g : PyGroup)
  | otherValue
deriving Repr, DecidableEq

/-- Python dict assignment `d[k] = v` on an insertion-ordered dict modelled
as an association list: replace in place if the key exists, else append. -/
def dictInsert (l : List (String × PyGroup)) (k : String) (v : PyGroup) :
    List (String × PyGroup) :=
  if l.any (fun p => p.1 = k) then
    l.map (fun p => if p.1 = k then (k, v) else p)
  else l ++ [(k, v)]

/-- The state of one `GeNNModel` instance.  `built`/`loaded` are the
`_built`/`_loaded` flags; `recording_in_use` mirrors the native
`ModelSpecInternal.recording_in_use` property (true iff some population
enables spike recording); `scalarType` records which numpy type
`genn_types["scalar"]` was pointed at (genn_model.py:182). -/
structure GeNNModel where
  precision : String
  time_precision : String
  scalarType : String
  model_name : String
  backend_name : String
  built : Bool
  loaded : Bool
  path_to_model : String
  neuron_populations : List (String × PyGroup)
  synapse_populations : List (String × PyGroup)
  current_sources : List (String × PyGroup)
  custom_updates : List (String × PyGroup)
  recording_in_use : Bool
deriving Repr, DecidableEq

deriving instance DecidableEq for Except

/-- Uniform result of a `GeNNModel` method: warnings emitted, runtime calls
issued, outcome, and the model object afterwards (Python objects survive
their methods' exceptions, keeping any mutation made before the raise). -/
structure OpOut where
  warnings : List PyWarning
  calls : List SLMCall
  val : Except Err Unit
  st : GeNNModel
deriving Repr, DecidableEq

/-- The fixed backend preference order iterated at module scope
(genn_model.py:68). -/
def backendPreferenceOrder : List String := ["cuda", "single_threaded_cpu", "opencl"]

/-- The module-level `backend_modules` ordered dict: the preference order
filtered down to the backends whose module import succeeds (`importOk`). -/
def backend_modules (importOk : String → Bool) : List String :=
  backendPreferenceOrder.filter importOk

/-- The `backend_name` property setter (genn_model.py:191-206): refuses
mutation once built; with no explicit name asserts some backend imported
and takes the first entry of `backend_modules`; with an explicit name looks
it up in `backend_modules` (a missing key is a Python `KeyError`). -/
def set_backend_name (m : GeNNModel) (avail : List String)
    (backend_name : Option String) : Except Err GeNNModel :=
  if m.built then .error .alreadyBuilt
  else
    match backend_name with
    | none =>
      match avail with
      | [] => .error .noBackendAvailable
      | b :: _ => .ok { m with backend_name := b }
    | some n =>
      if n ∈ avail then .ok { m with backend_name := n }
      else .error (.backendNotFound n)

/-- `GeNNModel.__init__` (genn_model.py:90-185).  The effective time
precision is `precision` when `time_precision` is `None`; only it is
validated (the corresponding check of `precision` itself sits inside a
commented-out TODO block, lines 129-143).  After flag setup the
`backend_name` setter runs, and finally `genn_types["scalar"]` is pointed
at float32 when `precision == "float"` and at float64 otherwise. -/
def GeNNModel.init (precision model_name : String) (backend : Option String)
    (time_precision : Option String) (avail : List String) :
    Except Err GeNNModel :=
  let tp := match time_precision with
            | none => precision
            | some t => t
  if tp = "float" ∨ tp = "double" then
    let m0 : GeNNModel :=
      { precision := precision
        time_precision := tp
        scalarType := if precision = "float" then "float" else "double"
        model_name := model_name
        backend_name := ""
        built := false
        loaded := false
        path_to_model := "./"
        neuron_populations := []
        synapse_populations := []
        current_sources := []
        custom_updates := []
        recording_in_use := false }
    set_backend_name m0 avail backend
  else .error (.unsupportedTimePrecision tp)

/-- `GeNNModel._validate_neuron_group` (genn_model.py:630-645): a string is
looked up in `neuron_populations` and a miss raises the not-found
`ValueError` carrying the context and the name; a `NeuronGroup` handle is
returned as-is with no registry lookup; anything else raises the
wrong-type `ValueError`. -/
def validate_neuron_group (m : GeNNModel) (group : GroupRef)
    (context : String) : Except Err PyGroup :=
  match group with
  | .byName s =>
    match m.neuron_populations.lookup s with
    | some g => .ok g
    | none => .error (.groupNotFound context s)
  | .byHandle g => .ok g
  | .otherValue => .error (.groupWrongType context)

/-- `GeNNModel.add_neuron_population` (genn_model.py:261-290): refused once
built, otherwise the group built by the native superclass (here passed in
as `g`) is stored under `pop_name`. -/
def add_neuron_population (m : GeNNModel) (pop_name : String) (g : PyGroup) :
    OpOut :=
  if m.built then ⟨[], [], .error .alreadyBuilt, m⟩
  else
    ⟨[], [], .ok (),
     { m with neuron_populations := dictInsert m.neuron_populations pop_name g }⟩

/-- `GeNNModel.add_synapse_population` (genn_model.py:292-351): refused once
built; validates `source` then `target` through `_validate_neuron_group`;
on success the group made by the native superclass (here `g`) is stored
under `pop_name`. -/
def add_synapse_population (m : GeNNModel) (pop_name : String)
    (source target : GroupRef) (g : PyGroup) : OpOut :=
  if m.built then ⟨[], [], .error .alreadyBuilt, m⟩
  else
    match validate_neuron_group m source "source" with
    | .error e => ⟨[], [], .error e, m⟩
    | .ok _ =>
      match validate_neuron_group m target "target" with
      | .error e => ⟨[], [], .error e, m⟩
      | .ok _ =>
        ⟨[], [], .ok (),
         { m with synapse_populations :=
             dictInsert m.synapse_populations pop_name g }⟩

/-- `GeNNModel.add_current_source` (genn_model.py:353-386): refused once
built; validates `pop` with context `"pop"`; on success stores the group
under `cs_name`. -/
def add_current_source (m : GeNNModel) (cs_name : String) (pop : GroupRef)
    (g : PyGroup) : OpOut :=
  if m.built then ⟨[], [], .error .alreadyBuilt, m⟩
  else
    match validate_neuron_group m pop "pop" with
    | .error e => ⟨[], [], .error e, m⟩
    | .ok _ =>
      ⟨[], [], .ok (),
       { m with current_sources := dictInsert m.current_sources cs_name g }⟩

/-- `GeNNModel.add_custom_update` (genn_model.py:388-418): refused once
built, otherwise stores the group under `cu_name` (no reference
validation happens in this wrapper). -/
def add_custom_update (m : GeNNModel) (cu_name : String) (g : PyGroup) :
    OpOut :=
  if m.built then ⟨[], [], .error .alreadyBuilt, m⟩
  else
    ⟨[], [], .ok (),
     { m with custom_updates := dictInsert m.custom_updates cu_name g }⟩

/-- Success oracle for the three external steps of `build`: backend
creation, code generation, and the `msbuild`/`make` subprocess. -/
structure ExtBuild where
  createBackendOk : Bool
  generateOk : Bool
  compileOk : Bool
deriving Repr, DecidableEq

/-- `GeNNModel.build` (genn_model.py:420-466): refused once built; stores
`path_to_model`; then finalizes the description, creates the backend,
generates code and runs the platform build subprocess (each of these
external steps may raise, propagated as-is, in which case `_built` stays
false and the already-stored path persists); on success sets `_built`. -/
def build (m : GeNNModel) (path_to_model : String) (ext : ExtBuild) : OpOut :=
  if m.built then ⟨[], [], .error .alreadyBuilt, m⟩
  else
    let m1 := { m with path_to_model := path_to_model }
    if !ext.createBackendOk then
      ⟨[], [], .error (.externalFailure "create_backend"), m1⟩
    else if !ext.generateOk then
      ⟨[], [], .error (.externalFailure "generate_code"), m1⟩
    else if !ext.compileOk then
      ⟨[], [], .error (.externalFailure "compile"), m1⟩
    else
      ⟨[], [], .ok (), { m1 with built := true }⟩

/-- The tail of `load` after the recording-buffer step
(genn_model.py:488-526): `load_init_egps` over the four registries in
order, global `initialize`, per-group `load` over the same four registries
in the same order (the neuron loads receive `num_recording_timesteps`),
and finally `initialize_sparse`. -/
def loadTail (m : GeNNModel) (nrt : Option Nat) : List SLMCall :=
  m.neuron_populations.map (fun p => .loadInitEgps "neuron" p.1)
  ++ m.synapse_populations.map (fun p => .loadInitEgps "synapse" p.1)
  ++ m.current_sources.map (fun p => .loadInitEgps "current_source" p.1)
  ++ m.custom_updates.map (fun p => .loadInitEgps "custom_update" p.1)
  ++ [SLMCall.runInit]
  ++ m.neuron_populations.map (fun p => .loadGroup "neuron" p.1 nrt)
  ++ m.synapse_populations.map (fun p => .loadGroup "synapse" p.1 none)
  ++ m.current_sources.map (fun p => .loadGroup "current_source" p.1 none)
  ++ m.custom_updates.map (fun p => .loadGroup "custom_update" p.1 none)
  ++ [SLMCall.runInitSparse]

/-- `GeNNModel.load` (genn_model.py:468-530): only an already-loaded model
is refused (there is no check of `_built`); `_path_to_model` is stored,
the runtime is opened and memory allocated; if the description uses the
recording system a missing `num_recording_timesteps` raises, otherwise
recording buffers of exactly that many timesteps are allocated; then the
`loadTail` sequence runs and on success both `_loaded` and `_built` are
set. -/
def load (m : GeNNModel) (path_to_model : String) (nrt : Option Nat) : OpOut :=
  if m.loaded then ⟨[], [], .error .alreadyLoaded, m⟩
  else
    let m1 := { m with path_to_model := path_to_model }
    let pre := [SLMCall.slmOpen path_to_model m.model_name, SLMCall.allocateMem]
    if m.recording_in_use then
      match nrt with
      | none => ⟨[], pre, .error .recTimestepsMissing, m1⟩
      | some n =>
        ⟨[], pre ++ [SLMCall.allocateRecordingBuffers n] ++ loadTail m nrt,
         .ok (), { m1 with loaded := true, built := true }⟩
    else
      ⟨[], pre ++ loadTail m nrt, .ok (),
       { m1 with loaded := true, built := true }⟩

/-- `GeNNModel.step_time` (genn_model.py:532-537). -/
def step_time (m : GeNNModel) : OpOut :=
  if m.loaded then ⟨[], [SLMCall.stepTimeCall], .ok (), m⟩
  else ⟨[], [], .error (.notLoaded "stepping"), m⟩

/-- `GeNNModel.custom_update` (genn_model.py:539-544). -/
def custom_update (m : GeNNModel) (name : String) : OpOut :=
  if m.loaded then ⟨[], [SLMCall.customUpdateCall name], .ok (), m⟩
  else ⟨[], [], .error (.notLoaded "performing custom update"), m⟩

/-- `GeNNModel.pull_connectivity_from_device` (genn_model.py:546-551). -/
def pull_connectivity_from_device (m : GeNNModel) (pop_name : String) : OpOut :=
  if m.loaded then ⟨[], [SLMCall.pullConnectivity pop_name], .ok (), m⟩
  else ⟨[], [], .error (.notLoaded "pulling"), m⟩

/-- `GeNNModel.push_spikes_to_device` (genn_model.py:553-558). -/
def push_spikes_to_device (m : GeNNModel) (pop_name : String) : OpOut :=
  if m.loaded then ⟨[], [SLMCall.pushSpikes pop_name], .ok (), m⟩
  else ⟨[], [], .error (.notLoaded "pushing"), m⟩

/-- `GeNNModel.push_spike_events_to_device` (genn_model.py:560-565). -/
def push_spike_events_to_device (m : GeNNModel) (pop_name : String) : OpOut :=
  if m.loaded then ⟨[], [SLMCall.pushSpikeEvents pop_name], .ok (), m⟩
  else ⟨[], [], .error (.notLoaded "pushing"), m⟩

/-- `GeNNModel.push_current_spikes_to_device` (genn_model.py:567-572). -/
def push_current_spikes_to_device (m : GeNNModel) (pop_name : String) : OpOut :=
  if m.loaded then ⟨[], [SLMCall.pushCurrentSpikes pop_name], .ok (), m⟩
  else ⟨[], [], .error (.notLoaded "pushing"), m⟩

/-- `GeNNModel.push_current_spike_events_to_device` (genn_model.py:574-579). -/
def push_current_spike_events_to_device (m : GeNNModel) (pop_name : String) :
    OpOut :=
  if m.loaded then ⟨[], [SLMCall.pushCurrentSpikeEvents pop_name], .ok (), m⟩
  else ⟨[], [], .error (.notLoaded "pushing"), m⟩

/-- `GeNNModel.push_connectivity_to_device` (genn_model.py:581-586). -/
def push_connectivity_to_device (m : GeNNModel) (pop_name : String) : OpOut :=
  if m.loaded then ⟨[], [SLMCall.pushConnectivity pop_name], .ok (), m⟩
  else ⟨[], [], .error (.notLoaded "pushing"), m⟩

/-- `GeNNModel.push_var_to_device` (genn_model.py:588-593). -/
def push_var_to_device (m : GeNNModel) (pop_name var_name : String) : OpOut :=
  if m.loaded then ⟨[], [SLMCall.pushVar pop_name var_name], .ok (), m⟩
  else ⟨[], [], .error (.notLoaded "pushing"), m⟩

/-- `GeNNModel.push_extra_global_param_to_device` (genn_model.py:595-605):
first, an omitted `size` triggers the deprecation warning and the
substitution of 1; only then the loaded check runs; finally the size is
forwarded to `self._slm.push_extra_global_param`. -/
def push_extra_global_param_to_device (m : GeNNModel) (pop_name egp_name : String)
    (size : Option Nat) : OpOut :=
  let ws : List PyWarning :=
    match size with
    | none => [.deprecation egpSizeWarnMsg]
    | some _ => []
  let sz : Nat :=
    match size with
    | none => 1
    | some s => s
  if m.loaded then
    ⟨ws, [SLMCall.pushExtraGlobalParam pop_name egp_name sz], .ok (), m⟩
  else ⟨ws, [], .error (.notLoaded "pushing"), m⟩

/-- `GeNNModel.pull_recording_buffers_from_device` (genn_model.py:607-616):
loaded check first, then the recording-in-use check. -/
def pull_recording_buffers_from_device (m : GeNNModel) : OpOut :=
  if m.loaded then
    if m.recording_in_use then ⟨[], [SLMCall.pullRecordingBuffers], .ok (), m⟩
    else ⟨[], [], .error .recordingNotInUse, m⟩
  else ⟨[], [], .error (.notLoaded "pulling recording buffers"), m⟩

/-- The identifiers bound at module scope of genn_model.py: the imported
names, the module-level loop variables `b` and `m` (the `except ... as ex`
target is unbound again after its handler in Python 3), the
`backend_modules` dict, the `GeNNModel` class and every top-level function.
A bare identifier inside a method that is not a local resolves here (and
then among builtins, which hold none of these). -/
def genn_model_module_globals : List String :=
  ["OrderedDict", "import_module", "path", "system", "cpu_count",
   "check_call", "dedent", "warn", "proxy", "np", "iteritems", "itervalues",
   "string_types", "CurrentSource", "ModelSpecInternal", "NeuronGroup",
   "PlogSeverity", "SynapseGroup", "VarLocation",
   "SharedLibraryModelDouble", "SharedLibraryModelFloat",
   "NeuronGroupMixin", "get_model", "neuron_models", "b", "m",
   "backend_modules", "GeNNModel", "init_var", "init_connectivity",
   "init_toeplitz_connectivity", "create_var_ref", "create_psm_var_ref",
   "create_wu_pre_var_ref", "create_wu_post_var_ref", "create_wu_var_ref",
   "create_custom_neuron_class", "create_custom_postsynaptic_class",
   "create_custom_weight_update_class",
   "create_custom_current_source_class",
   "create_custom_custom_update_class", "create_custom_model_class",
   "create_dpf_class", "create_cmlf_class", "create_cksf_class",
   "create_custom_init_var_snippet_class",
   "create_custom_sparse_connect_init_snippet_class"]

/-- The EGP-freeing loop body of `end` on one registry: for every group,
every extra global parameter whose `needsAllocation` flag is set is freed
through `self._slm.free_extra_global_param(g_name, egp_name)`. -/
def groupFreeCalls (reg : List (String × PyGroup)) : List SLMCall :=
  (reg.map (fun p =>
    ((p.2.extra_global_params.filter (fun e => e.2)).map
      (fun e => SLMCall.freeExtraGlobalParam p.1 e.1)))).flatten

/-- `GeNNModel.end` (genn_model.py:618-628).  The method begins by
evaluating the list literal `[self.neuron_populations,
self.synapse_populations, self.current_sources, custom_updates]`; its
fourth element is the bare identifier `custom_updates` (not
`self.custom_updates`), which is neither a local of the method nor bound
at module scope nor a builtin, so Python raises `NameError` while building
the list — before any registry is iterated or any EGP freed.  Were the
identifier bound, the loop over the four registries would emit
`groupFreeCalls` of each. -/
def end_ (m : GeNNModel) : Except Err (List SLMCall) :=
  if "custom_updates" ∈ genn_model_module_globals then
    .ok (groupFreeCalls m.neuron_populations
         ++ groupFreeCalls m.synapse_populations
         ++ groupFreeCalls m.current_sources
         ++ groupFreeCalls m.custom_updates)
  else .error (.nameErr "custom_updates")

/-- Modelled from the spec: the teardown contract of spec section 4.5,
which the `end` method was evidently meant to implement — iterate all four
population registries (neuron populations, synapse populations, current
sources, custom updates) and free every extra global parameter whose
ownership flag indicates runtime-managed allocation, never touching the
caller-managed ones. -/
def end_intended (m : GeNNModel) : List SLMCall :=
  groupFreeCalls m.neuron_populations
  ++ groupFreeCalls m.synapse_populations
  ++ groupFreeCalls m.current_sources
  ++ groupFreeCalls m.custom_updates

/-- `True` iff the constructor call returned a model instead of raising. -/
def exceptOk (e : Except Err GeNNModel) : Bool :=
  match e with
  | .ok _ => true
  | .error _ => false

/-- The state right after `GeNNModel("float")` on a host where only the
single-threaded CPU backend imports: no populations, no recording, flags
clear. -/
def freshModel : GeNNModel :=
  { precision := "float"
    time_precision := "float"
    scalarType := "float"
    model_name := "GeNNModel"
    backend_name := "single_threaded_cpu"
    built := false
    loaded := false
    path_to_model := "./"
    neuron_populations := []
    synapse_populations := []
    current_sources := []
    custom_updates := []
    recording_in_use := false }

/-- `freshModel` after a successful `build()` and `load()`. -/
def loadedModel : GeNNModel := { freshModel with built := true, loaded := true }

/-- `freshModel` with a population that enables spike recording. -/
def recordingModel : GeNNModel := { freshModel with recording_in_use := true }

/-- A `NeuronGroup` handle that is in no registry of the model it is
passed to. -/
def ghostGroup : PyGroup := ⟨[]⟩

/-- External build steps all succeed. -/
def extAllOk : ExtBuild := ⟨true, true, true⟩

/-- The compilation subprocess exits with a non-zero status. -/
def extFailCompile : ExtBuild := ⟨true, true, false⟩

/-- A model carrying extra global parameters: one runtime-managed
(`needsAllocation = true`) and one caller-managed EGP on a neuron
population, and one runtime-managed EGP on a custom update. -/
def egpModel : GeNNModel :=
  { freshModel with
      neuron_populations := [("pop", ⟨[("egpA", true), ("egpB", false)]⟩)]
      custom_updates := [("cu", ⟨[("egpC", true)]⟩)] }

/-- An import oracle under which only the single-threaded CPU backend
module imports. -/
def cpuOnly : String → Bool := fun b => b == "single_threaded_cpu"

/-- Claim C1, counterexample: on a never-built model (`built = false`),
`load()` does not fail with a StateError; it succeeds outright, and its
very first runtime call is the `open` of the compiled artifact — so the
runtime open/allocate operations are attempted with no built-state check. -/
theorem load_unbuilt_no_state_error :
    freshModel.built = false ∧
    (load freshModel "./" none).val = .ok () ∧
    (load freshModel "./" none).calls.head? =
      some (SLMCall.slmOpen "./" "GeNNModel") := by decide

/-- Claim C1, amended: `load()` checks only the loaded flag.  On an
already-loaded model it fails with the StateError "GeNN model already
loaded" before any runtime call; on any model that is not loaded —
whatever its built flag — it proceeds directly to the runtime `open` and
`allocate_mem` calls, and on success (here: recording not in use) sets
both the loaded and the built flag. -/
theorem load_state_gating (m : GeNNModel) (p : String) :
    (m.loaded = true → ∀ nrt, (load m p nrt).val = .error .alreadyLoaded ∧
      (load m p nrt).calls = []) ∧
    (m.loaded = false → ∀ nrt,
      (load m p nrt).calls.take 2 =
        [SLMCall.slmOpen p m.model_name, SLMCall.allocateMem] ∧
      (m.recording_in_use = false →
        (load m p nrt).val = .ok () ∧
        (load m p nrt).st.built = true ∧
        (load m p nrt).st.loaded = true)) := by
  constructor
  · intro hl nrt
    simp [load, hl]
  · intro hl nrt
    constructor
    · cases hrec : m.recording_in_use
      · simp [load, hl, hrec]
      · cases nrt <;> simp [load, hl, hrec]
    · intro hrec
      simp [load, hl, hrec]

/-- Claim C1, witness for `load_state_gating` at concrete states. -/
theorem load_state_gating_witness :
    loadedModel.loaded = true ∧
    (load loadedModel "./" none).val = .error .alreadyLoaded ∧
    freshModel.loaded = false ∧
    (load freshModel "./" none).calls.take 2 =
      [SLMCall.slmOpen "./" "GeNNModel", SLMCall.allocateMem] :=
  ⟨rfl, ((load_state_gating loadedModel "./").1 rfl none).1, rfl,
   (((load_state_gating freshModel "./").2 rfl none).1)⟩

/-- Claim C2, counterexample: a first `build()` whose compilation
subprocess fails raises an external failure, leaving the built flag clear;
a second `build()` on the resulting object is then NOT refused with a
StateError — it reattempts the build and succeeds. -/
theorem build_retry_after_failure :
    (build freshModel "./" extFailCompile).val =
      .error (.externalFailure "compile") ∧
    (build freshModel "./" extFailCompile).st.built = false ∧
    (build (build freshModel "./" extFailCompile).st "./" extAllOk).val =
      .ok () := by decide

/-- Claim C2, amended: `build()` succeeds at most once — a successful
build sets the built flag and any later `build()` fails with the
StateError "GeNN model already built" — but after a FAILED build the flag
is still clear and a second call is not refused; it retries. -/
theorem build_succeeds_at_most_once (m : GeNNModel) (p q : String)
    (e1 e2 : ExtBuild) :
    ((build m p e1).val = .ok () → (build m p e1).st.built = true) ∧
    (m.built = true → (build m p e1).val = .error .alreadyBuilt) ∧
    ((build m p e1).val = .ok () →
      (build (build m p e1).st q e2).val = .error .alreadyBuilt) := by
  cases hb : m.built <;>
    cases hc : e1.createBackendOk <;>
    cases hg : e1.generateOk <;>
    cases hk : e1.compileOk <;>
    simp [build, hb, hc, hg, hk]

/-- Claim C2, witness for `build_succeeds_at_most_once`: a successful
build followed by a second build that fails with the StateError. -/
theorem build_succeeds_at_most_once_witness :
    (build freshModel "./" extAllOk).val = .ok () ∧
    (build (build freshModel "./" extAllOk).st "./" extAllOk).val =
      .error .alreadyBuilt :=
  ⟨by decide,
   (build_succeeds_at_most_once freshModel "./" "./" extAllOk extAllOk).2.2
     (by decide)⟩

/-- Claim C3: every device-facing operation — `step_time`,
`custom_update`, every push/pull operation and
`pull_recording_buffers_from_device` — called on a model that is not
loaded fails with the "GeNN model has to be loaded before ..."
precondition error and issues no runtime call; and on a loaded model whose
description uses no recording, `pull_recording_buffers_from_device` fails
with the recording-not-in-use error. -/
theorem device_ops_require_loaded (m : GeNNModel)
    (pop v nm egp : String) (sz : Option Nat) :
    (m.loaded = false →
      (step_time m).val = .error (.notLoaded "stepping") ∧
      (custom_update m nm).val =
        .error (.notLoaded "performing custom update") ∧
      (pull_connectivity_from_device m pop).val =
        .error (.notLoaded "pulling") ∧
      (push_spikes_to_device m pop).val = .error (.notLoaded "pushing") ∧
      (push_spike_events_to_device m pop).val =
        .error (.notLoaded "pushing") ∧
      (push_current_spikes_to_device m pop).val =
        .error (.notLoaded "pushing") ∧
      (push_current_spike_events_to_device m pop).val =
        .error (.notLoaded "pushing") ∧
      (push_connectivity_to_device m pop).val =
        .error (.notLoaded "pushing") ∧
      (push_var_to_device m pop v).val = .error (.notLoaded "pushing") ∧
      (push_extra_global_param_to_device m pop egp sz).val =
        .error (.notLoaded "pushing") ∧
      (push_extra_global_param_to_device m pop egp sz).calls = [] ∧
      (pull_recording_buffers_from_device m).val =
        .error (.notLoaded "pulling recording buffers") ∧
      (step_time m).calls = []) ∧
    (m.loaded = true → m.recording_in_use = false →
      (pull_recording_buffers_from_device m).val =
        .error .recordingNotInUse) := by
  constructor
  · intro hl
    simp [step_time, custom_update, pull_connectivity_from_device,
          push_spikes_to_device, push_spike_events_to_device,
          push_current_spikes_to_device, push_current_spike_events_to_device,
          push_connectivity_to_device, push_var_to_device,
          push_extra_global_param_to_device,
          pull_recording_buffers_from_device, hl]
  · intro hl hr
    simp [pull_recording_buffers_from_device, hl, hr]

/-- Claim C3, witness for `device_ops_require_loaded` at concrete states. -/
theorem device_ops_require_loaded_witness :
    freshModel.loaded = false ∧
    (step_time freshModel).val = .error (.notLoaded "stepping") ∧
    loadedModel.loaded = true ∧
    loadedModel.recording_in_use = false ∧
    (pull_recording_buffers_from_device loadedModel).val =
      .error .recordingNotInUse :=
  ⟨rfl, ((device_ops_require_loaded freshModel "p" "v" "n" "e" none).1 rfl).1,
   rfl, rfl,
   (device_ops_require_loaded loadedModel "p" "v" "n" "e" none).2 rfl rfl⟩

/-- Claim C4, counterexample: a synapse population whose source and target
are passed as handles that exist in NO registry (the neuron registry is
empty) is registered without any error — the code performs no registry
lookup for handles, refuting "whether passed by name or by handle". -/
theorem unregistered_handle_accepted :
    freshModel.neuron_populations = [] ∧
    (add_synapse_population freshModel "syn" (.byHandle ghostGroup)
      (.byHandle ghostGroup) ghostGroup).val = .ok () := by decide

/-- Claim C4, amended: a source/target/pop reference passed BY NAME that
is absent from the neuron registry fails with the not-found error naming
the role ("source", "target" or "pop") and the missing name; a reference
passed by handle is accepted with no registry membership check at all. -/
theorem group_reference_validation (m : GeNNModel)
    (pn cn nm : String) (g g2 sg : PyGroup)
    (hb : m.built = false)
    (hn : m.neuron_populations.lookup nm = none) :
    (add_synapse_population m pn (.byName nm) (.byHandle g) sg).val =
      .error (.groupNotFound "source" nm) ∧
    (add_synapse_population m pn (.byHandle g) (.byName nm) sg).val =
      .error (.groupNotFound "target" nm) ∧
    (add_current_source m cn (.byName nm) sg).val =
      .error (.groupNotFound "pop" nm) ∧
    (add_synapse_population m pn (.byHandle g) (.byHandle g2) sg).val =
      .ok () ∧
    (add_current_source m cn (.byHandle g) sg).val = .ok () := by
  simp [add_synapse_population, add_current_source, validate_neuron_group,
        hb, hn]

/-- Claim C4, witness for `group_reference_validation` at a concrete
model and missing name. -/
theorem group_reference_validation_witness :
    freshModel.built = false ∧
    freshModel.neuron_populations.lookup "ghost" = none ∧
    (add_synapse_population freshModel "syn" (.byName "ghost")
      (.byHandle ghostGroup) ghostGroup).val =
      .error (.groupNotFound "source" "ghost") :=
  ⟨rfl, rfl,
   (group_reference_validation freshModel "syn" "cs" "ghost" ghostGroup
     ghostGroup ghostGroup rfl rfl).1⟩

/-- No call in the post-recording tail of `load` is a recording-buffer
allocation: the tail consists only of per-group EGP loads, the global
init, per-group loads and the sparse init. -/
theorem allocRec_not_mem_loadTail (m : GeNNModel) (nrt : Option Nat) (k : Nat) :
    SLMCall.allocateRecordingBuffers k ∉ loadTail m nrt := by
  simp [loadTail]

/-- Claim C5: on a not-yet-loaded model whose description uses recording,
`load()` without a timestep count fails with the configuration error and
never issues a recording-buffer allocation; with a count `n ≥ 1` it
succeeds and allocates a recording buffer of exactly `n` timesteps (and of
no other size); and when recording is not in use, no recording buffer is
allocated whatever the argument. -/
theorem load_recording_buffer_allocation (m : GeNNModel) (p : String) (n : Nat)
    (hl : m.loaded = false) :
    (m.recording_in_use = true →
      (load m p none).val = .error .recTimestepsMissing ∧
      (∀ k, SLMCall.allocateRecordingBuffers k ∉ (load m p none).calls) ∧
      (1 ≤ n →
        (load m p (some n)).val = .ok () ∧
        SLMCall.allocateRecordingBuffers n ∈ (load m p (some n)).calls ∧
        (∀ k, SLMCall.allocateRecordingBuffers k ∈ (load m p (some n)).calls →
          k = n))) ∧
    (m.recording_in_use = false →
      ∀ nrt k, SLMCall.allocateRecordingBuffers k ∉ (load m p nrt).calls) := by
  constructor
  · intro hr
    refine ⟨by simp [load, hl, hr], by simp [load, hl, hr], ?_⟩
    intro _
    refine ⟨by simp [load, hl, hr], by simp [load, hl, hr], ?_⟩
    intro k hk
    simp [load, hl, hr, allocRec_not_mem_loadTail] at hk
    exact hk
  · intro hr nrt k
    simp [load, hl, hr, allocRec_not_mem_loadTail]

/-- Claim C5, witness for `load_recording_buffer_allocation` at a
recording-enabled model and count 5. -/
theorem load_recording_buffer_allocation_witness :
    recordingModel.loaded = false ∧
    recordingModel.recording_in_use = true ∧
    1 ≤ 5 ∧
    (load recordingModel "./" none).val = .error .recTimestepsMissing ∧
    (load recordingModel "./" (some 5)).val = .ok () ∧
    SLMCall.allocateRecordingBuffers 5 ∈ (load recordingModel "./" (some 5)).calls :=
  ⟨rfl, rfl, by decide,
   ((load_recording_buffer_allocation recordingModel "./" 5 rfl).1 rfl).1,
   (((load_recording_buffer_allocation recordingModel "./" 5 rfl).1 rfl).2.2
     (by decide)).1,
   (((load_recording_buffer_allocation recordingModel "./" 5 rfl).1 rfl).2.2
     (by decide)).2.1⟩

/-- Claim C6: with no explicit backend, the first backend of the fixed
preference order (cuda, single_threaded_cpu, opencl) whose module imports
is selected; with no importing backend at all, construction fails (the
failed `assert`, the spec's no-backend ConfigurationError) before any
compilation; an explicit name absent from the imported-backend dict fails
with the not-found (KeyError) error; and once the model is built the
`backend_name` setter refuses any change with the StateError. -/
theorem backend_resolution_order (importOk : String → Bool) (nm : String) :
    (importOk "cuda" = true →
      (GeNNModel.init "float" nm none none (backend_modules importOk)).map
        GeNNModel.backend_name = .ok "cuda") ∧
    (importOk "cuda" = false → importOk "single_threaded_cpu" = true →
      (GeNNModel.init "float" nm none none (backend_modules importOk)).map
        GeNNModel.backend_name = .ok "single_threaded_cpu") ∧
    (importOk "cuda" = false → importOk "single_threaded_cpu" = false →
      importOk "opencl" = true →
      (GeNNModel.init "float" nm none none (backend_modules importOk)).map
        GeNNModel.backend_name = .ok "opencl") ∧
    (importOk "cuda" = false → importOk "single_threaded_cpu" = false →
      importOk "opencl" = false →
      GeNNModel.init "float" nm none none (backend_modules importOk) =
        .error .noBackendAvailable) ∧
    (∀ bn, bn ∉ backend_modules importOk →
      GeNNModel.init "float" nm (some bn) none (backend_modules importOk) =
        .error (.backendNotFound bn)) ∧
    (∀ (m : GeNNModel) (avail : List String) (b : Option String),
      m.built = true → set_backend_name m avail b = .error .alreadyBuilt) := by
  refine ⟨?_, ?_, ?_, ?_, ?_, ?_⟩
  · intro h1
    simp [GeNNModel.init, set_backend_name, backend_modules,
          backendPreferenceOrder, Except.map, h1]
  · intro h1 h2
    simp [GeNNModel.init, set_backend_name, backend_modules,
          backendPreferenceOrder, Except.map, h1, h2]
  · intro h1 h2 h3
    simp [GeNNModel.init, set_backend_name, backend_modules,
          backendPreferenceOrder, Except.map, h1, h2, h3]
  · intro h1 h2 h3
    simp [GeNNModel.init, set_backend_name, backend_modules,
          backendPreferenceOrder, h1, h2, h3]
  · intro bn hbn
    simp [GeNNModel.init, set_backend_name, hbn]
  · intro m avail b hb
    simp [set_backend_name, hb]

/-- Claim C6, witness for `backend_resolution_order`: when only the CPU
backend imports, it is the one selected, and once built the setter
refuses. -/
theorem backend_resolution_order_witness :
    cpuOnly "cuda" = false ∧
    cpuOnly "single_threaded_cpu" = true ∧
    (GeNNModel.init "float" "GeNNModel" none none (backend_modules cpuOnly)).map
      GeNNModel.backend_name = .ok "single_threaded_cpu" ∧
    loadedModel.built = true ∧
    set_backend_name loadedModel (backend_modules cpuOnly) (some "cuda") =
      .error .alreadyBuilt :=
  ⟨by decide, by decide,
   (backend_resolution_order cpuOnly "GeNNModel").2.1 (by decide) (by decide),
   rfl,
   (backend_resolution_order cpuOnly "GeNNModel").2.2.2.2.2 loadedModel
     (backend_modules cpuOnly) (some "cuda") rfl⟩

/-- Claim C7: on a loaded model, `push_extra_global_param_to_device`
without a size succeeds, forwards size 1 to the runtime and emits exactly
the deprecation warning; with an explicit size it forwards exactly that
size and emits no warning. -/
theorem push_egp_default_size (m : GeNNModel) (pop egp : String) (s : Nat)
    (hl : m.loaded = true) :
    (push_extra_global_param_to_device m pop egp none).warnings =
      [.deprecation egpSizeWarnMsg] ∧
    (push_extra_global_param_to_device m pop egp none).calls =
      [.pushExtraGlobalParam pop egp 1] ∧
    (push_extra_global_param_to_device m pop egp none).val = .ok () ∧
    (push_extra_global_param_to_device m pop egp (some s)).warnings = [] ∧
    (push_extra_global_param_to_device m pop egp (some s)).calls =
      [.pushExtraGlobalParam pop egp s] ∧
    (push_extra_global_param_to_device m pop egp (some s)).val = .ok () := by
  simp [push_extra_global_param_to_device, hl]

/-- Claim C7, witness for `push_egp_default_size` on a loaded model. -/
theorem push_egp_default_size_witness :
    loadedModel.loaded = true ∧
    (push_extra_global_param_to_device loadedModel "pop" "egp" none).calls =
      [.pushExtraGlobalParam "pop" "egp" 1] ∧
    (push_extra_global_param_to_device loadedModel "pop" "egp" (some 7)).calls =
      [.pushExtraGlobalParam "pop" "egp" 7] :=
  ⟨rfl, (push_egp_default_size loadedModel "pop" "egp" 7 rfl).2.1,
   (push_egp_default_size loadedModel "pop" "egp" 7 rfl).2.2.2.2.1⟩

/-- Claim C8, counterexample: "half" is not a supported precision, yet
constructing a model with precision "half" and an explicit valid
time-precision "float" raises nothing — the precision check sits inside a
commented-out TODO block, so only the time precision is validated. -/
theorem bad_precision_accepted :
    ("half" ≠ "float" ∧ "half" ≠ "double") ∧
    exceptOk (GeNNModel.init "half" "GeNNModel" none (some "float")
      ["single_threaded_cpu"]) = true := by decide

/-- Claim C8, amended: only the effective TIME precision (the explicit
`time_precision` argument, or `precision` when it is omitted) is validated
at construction, failing on anything other than "float"/"double"; an
unsupported `precision` with a valid explicit time precision is accepted
without error (with any available backend, construction succeeds). -/
theorem time_precision_only_validated (prec nm : String) (b : Option String)
    (tp : String) (avail : List String) :
    (tp ≠ "float" → tp ≠ "double" →
      GeNNModel.init prec nm b (some tp) avail =
        .error (.unsupportedTimePrecision tp)) ∧
    (prec ≠ "float" → prec ≠ "double" →
      GeNNModel.init prec nm b none avail =
        .error (.unsupportedTimePrecision prec)) ∧
    (∀ bh bt, exceptOk (GeNNModel.init prec nm none (some "float")
      (bh :: bt)) = true) := by
  refine ⟨?_, ?_, ?_⟩
  · intro h1 h2
    simp [GeNNModel.init, h1, h2]
  · intro h1 h2
    simp [GeNNModel.init, h1, h2]
  · intro bh bt
    simp [GeNNModel.init, set_backend_name, exceptOk]

/-- Claim C8, witness for `time_precision_only_validated`: an unsupported
time precision is rejected, an unsupported precision is accepted. -/
theorem time_precision_only_validated_witness :
    ("half" : String) ≠ "float" ∧ ("half" : String) ≠ "double" ∧
    GeNNModel.init "float" "M" none (some "half") ["cuda"] =
      .error (.unsupportedTimePrecision "half") ∧
    exceptOk (GeNNModel.init "half" "M" none (some "float") ["cuda"]) = true :=
  ⟨by decide, by decide,
   (time_precision_only_validated "float" "M" none "half" ["cuda"]).1
     (by decide) (by decide),
   (time_precision_only_validated "half" "M" none "half" ["cuda"]).2.2
     "cuda" []⟩

/-- Claim C9: `end()` on a model holding a runtime-managed EGP does not
free it — evaluating the list literal whose fourth element is the bare
(unbound) identifier `custom_updates` raises `NameError` before any
registry is iterated — while the teardown contract of the spec would free
exactly the runtime-managed EGPs of all four registries. -/
theorem end_raises_name_error :
    end_ egpModel = .error (.nameErr "custom_updates") ∧
    end_intended egpModel =
      [.freeExtraGlobalParam "pop" "egpA",
       .freeExtraGlobalParam "cu" "egpC"] := by decide

/-- Claim C10: `push_extra_global_param_to_device` with the size omitted
on a model that is NOT loaded still emits the deprecation warning — the
warning and the size-1 substitution happen before the loaded-state check —
and only then fails with the loaded-state precondition error, issuing no
runtime call. -/
theorem push_egp_warns_before_loaded_check (m : GeNNModel) (pop egp : String)
    (hl : m.loaded = false) :
    (push_extra_global_param_to_device m pop egp none).warnings =
      [.deprecation egpSizeWarnMsg] ∧
    (push_extra_global_param_to_device m pop egp none).val =
      .error (.notLoaded "pushing") ∧
    (push_extra_global_param_to_device m pop egp none).calls = [] := by
  simp [push_extra_global_param_to_device, hl]

/-- Claim C10, witness for `push_egp_warns_before_loaded_check` on a
fresh (unloaded) model. -/
theorem push_egp_warns_before_loaded_check_witness :
    freshModel.loaded = false ∧
    (push_extra_global_param_to_device freshModel "pop" "egp" none).warnings =
      [.deprecation egpSizeWarnMsg] ∧
    (push_extra_global_param_to_device freshModel "pop" "egp" none).val =
      .error (.notLoaded "pushing") :=
  ⟨rfl, (push_egp_warns_before_loaded_check freshModel "pop" "egp" rfl).1,
   (push_egp_warns_before_loaded_check freshModel "pop" "egp" rfl).2.1⟩
